import Mathlib

/-!
Verification development for the VectorDBRAG repository.

The Python sources are shallowly embedded: text is `List Char`, Python's
`str.lower` is `Char.toLower` mapped over the characters, `re.findall(r'\b\w+\b', s)`
and `str.split()` are maximal-run tokenizers, floats that only ever hold exact
similarity values are `ℝ` (where `math.sqrt`/`math.log` occur) or `ℚ`
(where only field operations occur), exceptions are `Except String`, and
external services (OpenAI chat completions, ChromaDB collections, `hash`)
are parameters of the embedded functions.
-/

/-! ## Shared text utilities (Python `str.lower`, `str.split`, `re.findall(r'\b\w+\b', ·)`,
and the substring test `needle in hay`). -/

/-- Python `str.lower()` on a character list (`Char.toLower` per character). -/
def lowerChars (s : List Char) : List Char :=
  s.map Char.toLower

/-- A Python `\w` regex character: alphanumeric or underscore. -/
def wordChar (c : Char) : Bool :=
  c.isAlphanum || c == '_'

/-- Accumulate maximal runs of characters satisfying `p`; `acc` holds the
current run reversed.  Models Python tokenisation by regular expression. -/
def runsByAux (p : Char → Bool) (acc : List Char) : List Char → List (List Char)
  | [] => if acc.isEmpty then [] else [acc.reverse]
  | c :: cs =>
    if p c then runsByAux p (c :: acc) cs
    else if acc.isEmpty then runsByAux p [] cs
    else acc.reverse :: runsByAux p [] cs

/-- The maximal runs of characters satisfying `p` in `s`, in order. -/
def runsBy (p : Char → Bool) (s : List Char) : List (List Char) :=
  runsByAux p [] s

/-- Python `re.findall(r'\b\w+\b', s)`: the maximal runs of word characters. -/
def findallWordsRaw (s : List Char) : List (List Char) :=
  runsBy wordChar s

/-- Python `s.split()`: maximal runs of non-whitespace characters. -/
def pySplit (s : List Char) : List (List Char) :=
  runsBy (fun c => !c.isWhitespace) s

/-- Does `hay` start with `needle`?  (Helper for the substring test.) -/
def leadsWith : List Char → List Char → Bool
  | [], _ => true
  | _ :: _, [] => false
  | a :: as, b :: bs => a == b && leadsWith as bs

/-- Python's substring containment `needle in hay` on character lists. -/
def hasSub (needle : List Char) : List Char → Bool
  | [] => needle.isEmpty
  | b :: bs => leadsWith needle (b :: bs) || hasSub needle bs

/-! ## `agents.py`, `TriageAgent` (lines 780–878)

`routing_rules` is a `dict` literal; Python dicts iterate in insertion
order, so it is embedded as an association list in the order the source
writes the keys.  `analyze_request` lowercases the query, walks the rules
and takes `agents[0]` of the first keyword contained in the query
(`break`), defaulting to `"executor"`; then classifies complexity. -/

/-- `TriageAgent.routing_rules` in the dict literal's insertion order. -/
def routing_rules : List (List Char × List String) :=
  [ ("code".data, ["code_analyzer", "code_debugger", "code_repair"]),
    ("debug".data, ["code_debugger", "test_generator"]),
    ("performance".data, ["performance", "code_analyzer"]),
    ("research".data, ["research", "ceo"]),
    ("image".data, ["image"]),
    ("audio".data, ["audio"]),
    ("test".data, ["test_generator"]),
    ("coach".data, ["coaching"]),
    ("complex".data, ["ceo", "executor"]) ]

/-- The `for keyword, agents in self.routing_rules.items(): if keyword in
query_lower: agent_type = agents[0]; break` loop, starting from the default
`"executor"`. -/
def routeLoop (queryLower : List Char) : List (List Char × List String) → String
  | [] => "executor"
  | (kw, agents) :: rest =>
    if hasSub kw queryLower then agents.head! else routeLoop queryLower rest

/-- Result shape of `TriageAgent.analyze_request`. -/
structure TriageAnalysis where
  agent_type : String
  complexity : String
  query : List Char
  context : List (String × String)

/-- `TriageAgent.analyze_request(query, context)` (agents.py lines 830–853). -/
def analyze_request (query : List Char) (context : List (String × String)) :
    TriageAnalysis :=
  let query_lower := lowerChars query
  let agent_type := routeLoop query_lower routing_rules
  let complexity :=
    if 50 < (pySplit query).length || hasSub "complex".data query_lower then "high"
    else if (pySplit query).length < 10 then "low"
    else "medium"
  { agent_type := agent_type, complexity := complexity, query := query,
    context := context }

/-! ## `vector_memory_text.py`, `TextSimilarityMemory` (lines 23–241)

`MemoryEntry` is the dataclass of line 23; timestamps are exact integers
(`time.time()` values), relevance scores live in `ℝ` because the combined
score mixes a square-root-based cosine with a rational Jaccard value. -/

/-- The `MemoryEntry` dataclass. -/
structure MemoryEntry where
  id : String
  content : List Char
  keywords : List (List Char)
  metadata : List (String × String)
  timestamp : Int
  agent_name : String
  entry_type : String
  relevance_score : Option ℝ := none

/-- The stop-word set of `_extract_keywords` (lines 74–80). -/
def stop_words : List (List Char) :=
  (["the", "a", "an", "and", "or", "but", "in", "on", "at", "to", "for", "of",
    "with", "by", "from", "up", "about", "into", "through", "during", "before",
    "after", "above", "below", "between", "among", "under", "over", "is", "was",
    "are", "were", "be", "been", "being", "have", "has", "had", "do", "does",
    "did", "will", "would", "could", "should", "may", "might", "must", "can",
    "this", "that", "these", "those"]).map String.data

/-- The distinct elements of `ws` in first-occurrence order: the key order
of `Counter(ws)` (Python dicts remember insertion order). -/
def firstOccur (ws : List (List Char)) : List (List Char) :=
  ws.foldl (fun acc x => if acc.contains x then acc else acc ++ [x]) []

/-- `Counter(ws).most_common(n)`: the distinct elements in first-occurrence
order, stably sorted by descending multiplicity, truncated to `n`. -/
def mostCommon (n : ℕ) (ws : List (List Char)) : List (List Char) :=
  ((firstOccur ws).mergeSort (fun a b => decide (ws.count b ≤ ws.count a))).take n

/-- `TextSimilarityMemory._extract_keywords` (lines 66–86): lowercase,
tokenize, drop stop words and words of length ≤ 2, keep the 20 most common. -/
def extract_keywords (text : List Char) : List (List Char) :=
  let words := findallWordsRaw (lowerChars text)
  let keywords := words.filter (fun w => !stop_words.contains w && decide (2 < w.length))
  mostCommon 20 keywords

/-- `TextSimilarityMemory._calculate_similarity` (lines 88–102): Jaccard
similarity of the two keyword sets, `0` when either list is empty.  The
value is exact, so it lives in `ℚ`. -/
def calculate_similarity (keywords1 keywords2 : List (List Char)) : ℚ :=
  if keywords1 = [] ∨ keywords2 = [] then 0
  else
    let intersection := (keywords1.dedup.filter (fun w => keywords2.contains w)).length
    let union := (keywords1 ++ keywords2).dedup.length
    if union = 0 then 0
    else (intersection : ℚ) / (union : ℚ)

/-- The tokens `re.findall(r'\b\w+\b', text.lower())` that
`_calculate_tfidf_similarity` builds for each of its two texts. -/
def simWords (text : List Char) : List (List Char) :=
  findallWordsRaw (lowerChars text)

/-- `vocab = set(words1 + words2)` of `_calculate_tfidf_similarity`, as a
duplicate-free list of its elements (a Python `set` is unordered and the
vocabulary is only ever summed over). -/
def simVocab (text1 text2 : List Char) : List (List Char) :=
  (simWords text1 ++ simWords text2).dedup

/-- `dot_product = sum(tf1[word] * tf2[word] for word in vocab)` of
`_calculate_tfidf_similarity` (line 120); `tf_i` is `Counter(words_i)`. -/
def simDot (text1 text2 : List Char) : ℕ :=
  ((simVocab text1 text2).map
    (fun w => (simWords text1).count w * (simWords text2).count w)).sum

/-- `sum(tf1[word] ** 2 for word in vocab)` (under the square root at
line 122). -/
def simNormSq1 (text1 text2 : List Char) : ℕ :=
  ((simVocab text1 text2).map (fun w => (simWords text1).count w ^ 2)).sum

/-- `sum(tf2[word] ** 2 for word in vocab)` (under the square root at
line 123). -/
def simNormSq2 (text1 text2 : List Char) : ℕ :=
  ((simVocab text1 text2).map (fun w => (simWords text2).count w ^ 2)).sum

/-- `TextSimilarityMemory._calculate_tfidf_similarity` (lines 104–128):
despite its name the code builds `tf1 = Counter(words1)` and
`tf2 = Counter(words2)` and never computes a document frequency, so the
value is the cosine of the raw term-frequency vectors: `0` when the
vocabulary is empty or either norm `math.sqrt(sum(tf[w] ** 2))` is zero,
and otherwise `dot_product / (norm1 * norm2)`. -/
noncomputable def calculate_tfidf_similarity (text1 text2 : List Char) : ℝ :=
  if simVocab text1 text2 = [] then 0
  else if Real.sqrt (simNormSq1 text1 text2) = 0 ∨
      Real.sqrt (simNormSq2 text1 text2) = 0 then 0
  else (simDot text1 text2 : ℝ) /
    (Real.sqrt (simNormSq1 text1 text2) * Real.sqrt (simNormSq2 text1 text2))

open Classical in
/-- Document frequency of `w` in the two-document corpus `{text1, text2}`:
in how many of the two texts `w` occurs. -/
def tbDocFreq (text1 text2 : List Char) (w : List Char) : ℕ :=
  (if w ∈ simWords text1 then 1 else 0) + (if w ∈ simWords text2 then 1 else 0)

/-- Textbook IDF over the two-document corpus: `log(N / df(w))` with `N = 2`. -/
noncomputable def tbIdf (text1 text2 : List Char) (w : List Char) : ℝ :=
  Real.log (2 / (tbDocFreq text1 text2 w : ℝ))

/-- TF-IDF weight of `w` in `text1` (term frequency times IDF). -/
noncomputable def tbWeight1 (text1 text2 : List Char) (w : List Char) : ℝ :=
  ((simWords text1).count w : ℝ) * tbIdf text1 text2 w

/-- TF-IDF weight of `w` in `text2` (term frequency times IDF). -/
noncomputable def tbWeight2 (text1 text2 : List Char) (w : List Char) : ℝ :=
  ((simWords text2).count w : ℝ) * tbIdf text1 text2 w

/-- The spec's description of `_calculate_tfidf_similarity`, stated in its
own words for comparison with the code: "the textbook TF-IDF cosine
similarity of the two texts: the cosine of their TF-IDF weight vectors over
the shared vocabulary, returning 0.0 when either vector has zero norm or
the vocabulary is empty".  The corpus at hand is the two texts themselves,
so `idf(w) = log(2 / df(w))`. -/
noncomputable def tfidfCosineTextbook (text1 text2 : List Char) : ℝ :=
  let vocab := simVocab text1 text2
  let dot := (vocab.map (fun w => tbWeight1 text1 text2 w * tbWeight2 text1 text2 w)).sum
  let norm1 := Real.sqrt ((vocab.map (fun w => tbWeight1 text1 text2 w ^ 2)).sum)
  let norm2 := Real.sqrt ((vocab.map (fun w => tbWeight2 text1 text2 w ^ 2)).sum)
  if vocab = [] then 0
  else if norm1 = 0 ∨ norm2 = 0 then 0
  else dot / (norm1 * norm2)

open Classical in
/-- The cosine similarity of the raw term-frequency vectors of the two
texts, written independently of the code over the vocabulary as a finite
set: the corrected reading of what `_calculate_tfidf_similarity` computes. -/
noncomputable def tfCosineOfVectors (text1 text2 : List Char) : ℝ :=
  let V := (simWords text1 ++ simWords text2).toFinset
  let v1 : List Char → ℝ := fun w => ((simWords text1).count w : ℝ)
  let v2 : List Char → ℝ := fun w => ((simWords text2).count w : ℝ)
  let ip := ∑ w ∈ V, v1 w * v2 w
  let n1 := Real.sqrt (∑ w ∈ V, v1 w ^ 2)
  let n2 := Real.sqrt (∑ w ∈ V, v2 w ^ 2)
  if V = ∅ then 0
  else if n1 = 0 ∨ n2 = 0 then 0
  else ip / (n1 * n2)

/-- The combined relevance score `0.7 * tfidf_sim + 0.3 * keyword_sim`
assigned at line 177 of `search_memory`, as a function of the query and the
entry's stored fields. -/
noncomputable def combinedRelevance (query : List Char) (e : MemoryEntry) : ℝ :=
  0.7 * calculate_tfidf_similarity query e.content +
    0.3 * (calculate_similarity (extract_keywords query) e.keywords : ℝ)

/-- Python truthiness filter for `if agent_name: filtered = [e for e in
filtered if e.agent_name == agent_name]` — `None` and `""` are falsy, so
those leave the list unfiltered. -/
def passesAgent (agent_name : Option String) (e : MemoryEntry) : Bool :=
  match agent_name with
  | none => true
  | some s => s.isEmpty || e.agent_name == s

/-- Same truthiness filter for `entry_type`. -/
def passesType (entry_type : Option String) (e : MemoryEntry) : Bool :=
  match entry_type with
  | none => true
  | some s => s.isEmpty || e.entry_type == s

/-- Combined entry filter of `search_memory` (lines 164–168). -/
def passesFilters (agent_name entry_type : Option String) (e : MemoryEntry) : Bool :=
  passesAgent agent_name e && passesType entry_type e

open Classical in
/-- Writing `entry.relevance_score` in the scoring loop (line 177). -/
noncomputable def scoreEntry (query : List Char) (e : MemoryEntry) : MemoryEntry :=
  { e with relevance_score := some (combinedRelevance query e) }

open Classical in
/-- Descending-by-key comparison used to embed Python's
`sorted(..., key=..., reverse=True)` as a stable merge sort. -/
noncomputable def descBy {α : Type} (f : α → ℝ) (a b : α) : Bool :=
  if f b ≤ f a then true else false

open Classical in
/-- `TextSimilarityMemory.search_memory` (lines 157–185).  First component:
the returned list (`sorted(filtered, key=lambda x: x.relevance_score or 0,
reverse=True)[:top_k]`); second component: `self.entries` after the call.
The scoring loop mutates the entry objects shared between
`filtered_entries` and `self.entries`, so the store effect is exactly that
every entry passing the filters gets its `relevance_score` overwritten;
`x.relevance_score or 0` agrees with `Option.getD 0` because the loop has
just set every score and Python's falsy `0.0` is the fallback value itself. -/
noncomputable def search_memory (query : List Char) (agent_name entry_type : Option String)
    (top_k : ℕ) (entries : List MemoryEntry) :
    List MemoryEntry × List MemoryEntry :=
  let pass := passesFilters agent_name entry_type
  let newStore := entries.map (fun e => if pass e then scoreEntry query e else e)
  let filtered := (entries.filter pass).map (scoreEntry query)
  let sortedEntries := filtered.mergeSort (descBy (fun e => e.relevance_score.getD 0))
  (sortedEntries.take top_k, newStore)

/-- `TextSimilarityMemory.add_memory` (lines 130–155), restricted to its
effect on `self.entries`: build the entry (with `_generate_id` abstracted
as the parameter `idFn`, since it hashes `f"{content}_{agent_name}_{time.time()}"`
with SHA-256) and append it.  Returns the new id and the new entry list. -/
def add_memory (idFn : List Char → String → Int → String) (now : Int)
    (content : List Char) (agent_name : String) (entry_type : String)
    (metadata : List (String × String)) (entries : List MemoryEntry) :
    String × List MemoryEntry :=
  let entry : MemoryEntry :=
    { id := idFn content agent_name now
      content := content
      keywords := extract_keywords content
      metadata := metadata
      timestamp := now
      agent_name := agent_name
      entry_type := entry_type
      relevance_score := none }
  (entry.id, entries ++ [entry])

/-- `TextSimilarityMemory.cleanup_old_memories` (lines 221–241), restricted
to its effect on `self.entries`: keep exactly the entries with
`timestamp > cutoff_time` where
`cutoff_time = time.time() - max_age_days * 24 * 60 * 60`. -/
def cleanup_old_memories (max_age_days : ℕ) (now : Int)
    (entries : List MemoryEntry) : List MemoryEntry :=
  let cutoff_time : Int := now - (max_age_days * 24 * 60 * 60 : ℕ)
  entries.filter (fun e => cutoff_time < e.timestamp)

/-- An entry with all relevance-bearing fields defaulted: the `MemoryEntry`
used as the concrete input of the eviction counterexample. -/
def entryAtEpoch : MemoryEntry :=
  { id := "e0", content := [], keywords := [], metadata := [], timestamp := 0,
    agent_name := "agent", entry_type := "knowledge", relevance_score := none }

/-- Erase the one mutable score field; two entries with equal `stripScore`
agree on every field `search_memory` is not allowed to change. -/
def stripScore (e : MemoryEntry) : MemoryEntry :=
  { e with relevance_score := none }

/-! ## `rag_system.py`, `RAGSystem` (lines 21–120)

ChromaDB is external: `collection.add` is observed through the argument
record the method passes to it, and `collection.query` is a parameter.
Python's process-local salted `hash` is the parameter `h` (the code takes
`abs(hash(content))`, so `h` lands in `ℕ`).  Scores only undergo field
operations, so they are `ℚ`. -/

/-- The `RAGResult` dataclass (rag_system.py line 21). -/
structure RAGResult where
  content : String
  source : String
  score : ℚ
  metadata : List (String × String)

/-- The argument record of the single `collection.add(documents=…,
metadatas=…, ids=…)` call of `add_document` (lines 76–80). -/
structure AddCall where
  documents : List String
  metadatas : List (List (String × String))
  ids : List String

/-- `doc_id = f"{source}_{abs(hash(content))}"` (line 74), with
`abs(hash(·))` abstracted as `h`. -/
def addDocumentId (h : String → ℕ) (content source : String) : String :=
  source ++ "_" ++ toString (h content)

/-- `RAGSystem.add_document` (lines 63–87): when ChromaDB or the collection
is unavailable it adds nothing and returns `False`; otherwise it issues one
`collection.add` call with a single document and returns `True`. -/
def add_document (h : String → ℕ) (chromadb_available collection_ok : Bool)
    (content source : String) (metadata : Option (List (String × String))) :
    Option AddCall × Bool :=
  if !chromadb_available || !collection_ok then (none, false)
  else
    (some { documents := [content]
            metadatas := [metadata.getD [("source", source)]]
            ids := [addDocumentId h content source] },
      true)

/-- One row of a ChromaDB `collection.query` reply (`results['documents'][0]`
and friends); `metadatas`/`distances` are `Option` because the code guards
them with `if results['metadatas']` / `if results['distances']`. -/
structure ChromaReply where
  documents : List String
  metadatas : Option (List (List (String × String)))
  distances : Option (List ℚ)

/-- First value of a string key in an association-list rendering of a JSON
object (Python `dict.get`). -/
def assocLookup {α : Type} (m : List (String × α)) (k : String) : Option α :=
  (m.find? (fun p => p.1 == k)).map (fun p => p.2)

/-- `RAGSystem.search` (lines 89–120): empty when not initialized or ChromaDB
is unavailable; otherwise one `collection.query(query_texts=[query],
n_results=top_k)` call (the parameter `queryFn`) repackaged in order, with
`metadata.get('source', 'Unknown')` and `score = 1.0 - distance`.  The list
indexing `results['metadatas'][0][i]` is embedded as `getD` with the
defaults the code uses for absent keys; the aligned-lengths hypothesis under
which this is exact is part of the endpoint theorem. -/
def ragSearch (queryFn : String → ℕ → ChromaReply)
    (initialized collection_ok chromadb_available : Bool)
    (query : String) (top_k : ℕ) : List RAGResult :=
  if !initialized || !collection_ok || !chromadb_available then []
  else
    let res := queryFn query top_k
    (List.range res.documents.length).map (fun i =>
      let doc := res.documents.getD i ""
      let metadata := match res.metadatas with
        | some ms => ms.getD i []
        | none => []
      let distance := match res.distances with
        | some ds => ds.getD i 0
        | none => 0
      { content := doc
        source := (assocLookup metadata "source").getD "Unknown"
        score := 1 - distance
        metadata := metadata })

/-! ## `agent_flask_integration.py`, `POST /api/rag/search` (lines 521–552) -/

/-- The JSON values the `/api/rag/search` request body can carry where the
endpoint inspects it: a string (`query`) or a number (`max_results`). -/
inductive JVal where
  | s (v : String)
  | n (v : ℕ)
deriving DecidableEq

/-- Render a `JVal` as the string Python would pass along (total, so the
embedding needs no exception for a non-string `query`). -/
def jvalString : JVal → String
  | .s v => v
  | .n v => toString v

/-- One element of the endpoint's `results` array: exactly the four fields
the route handler serialises per `RAGResult`, in source order. -/
structure SearchHit where
  content : String
  source : String
  score : ℚ
  metadata : List (String × String)
deriving DecidableEq

/-- A `/api/rag/search` response body: the error object
`{'error': msg}` or the success object `{'success': True, 'query': …,
'results': […]}`. -/
inductive SearchResp where
  | err (msg : String)
  | ok (query : String) (results : List SearchHit)
deriving DecidableEq

/-- `data.get('max_results', 5)`.  A non-numeric value would be forwarded
to ChromaDB and fail there in Python; the embedding keys the default on
the numeric case and the endpoint theorem restricts to numeric or absent. -/
def maxResultsOf (data : List (String × JVal)) : ℕ :=
  match assocLookup data "max_results" with
  | some (.n k) => k
  | _ => 5

/-- Serialisation of one `RAGResult` as the endpoint's JSON element. -/
def toSearchHit (r : RAGResult) : SearchHit :=
  { content := r.content, source := r.source, score := r.score,
    metadata := r.metadata }

/-- The `search_documents` route handler (agent_flask_integration.py lines
521–552): 400 when the JSON body is missing, empty (falsy) or lacks
`'query'`; otherwise it forwards to `rag_system.search` (the parameter
`rag`) and serialises each result as `{content, source, score, metadata}`.
Result: HTTP status code and body. -/
def search_documents (rag : String → ℕ → List RAGResult)
    (body : Option (List (String × JVal))) : ℕ × SearchResp :=
  match body with
  | none => (400, .err "Query is required")
  | some data =>
    if data.isEmpty then (400, .err "Query is required")
    else
      match assocLookup data "query" with
      | none => (400, .err "Query is required")
      | some qv =>
        let query := jvalString qv
        let max_results := maxResultsOf data
        let results := rag query max_results
        (200, .ok query (results.map toSearchHit))

/-! ## `unified_agent_system.py`, `UnifiedAgentManager` (lines 41–308)

The OpenAI-backed agents are abstracted as a name plus a fallible
execution step (`run`/`execute` both reduce to one call returning a string
or raising); `self.agents` is a partial map from `AgentType`; wall-clock
reads are integer parameters.  Each method's `try` body is an
`Except String` computation and the method pattern-matches on it, which is
the embedding of `except Exception as e`. -/

/-- The `AgentType` enum (lines 41–54). -/
inductive AgentType where
  | ceo | executor | triage | research | performance | coaching
  | test_generator | code_analyzer | code_debugger | code_repair
  | image | audio
deriving DecidableEq

/-- The `.value` string of an `AgentType` member. -/
def agentTypeValue : AgentType → String
  | .ceo => "ceo"
  | .executor => "executor"
  | .triage => "triage"
  | .research => "research"
  | .performance => "performance"
  | .coaching => "coaching"
  | .test_generator => "test_generator"
  | .code_analyzer => "code_analyzer"
  | .code_debugger => "code_debugger"
  | .code_repair => "code_repair"
  | .image => "image"
  | .audio => "audio"

/-- `AgentType(s)`: the member whose value is `s`, or `None` (`ValueError`). -/
def agentTypeOfValue (s : String) : Option AgentType :=
  ([AgentType.ceo, .executor, .triage, .research, .performance, .coaching,
    .test_generator, .code_analyzer, .code_debugger, .code_repair,
    .image, .audio].find? (fun t => agentTypeValue t == s))

/-- The `TaskComplexity` enum (lines 57–62). -/
inductive TaskComplexity where
  | low | medium | high | critical
deriving DecidableEq

/-- The `.value` string of a `TaskComplexity` member. -/
def taskComplexityValue : TaskComplexity → String
  | .low => "low"
  | .medium => "medium"
  | .high => "high"
  | .critical => "critical"

/-- `TaskComplexity(s)`: the member whose value is `s`, or `None`. -/
def taskComplexityOfValue (s : String) : Option TaskComplexity :=
  ([TaskComplexity.low, .medium, .high, .critical].find?
    (fun c => taskComplexityValue c == s))

/-- The `AgentTask` dataclass (lines 65–77): `context` as a string map,
`created_at` elided (write-only timestamp). -/
structure AgentTask where
  id : String
  content : String
  agent_type : AgentType
  complexity : TaskComplexity
  context : List (String × String)
  priority : Int := 1

/-- A metadata value of an `AgentResponse`: the dicts built at lines
211–215 and 278–282 mix strings and the task's context map. -/
inductive MetaVal where
  | s (v : String)
  | m (v : List (String × String))

/-- The `AgentResponse` dataclass (lines 80–88). -/
structure AgentResponse where
  task_id : String
  agent_name : String
  result : String
  success : Bool
  execution_time : Int
  metadata : Option (List (String × MetaVal)) := none
  error : Option String := none

/-- An initialized agent as the manager sees it: its `name` attribute and
its execution step (`run`, or the `execute`/event-loop path), which
returns the result string or raises. -/
structure ManagedAgent where
  name : String
  run : String → Except String String

/-- `self.agents[t]` (dict indexing): `KeyError` when the agent is missing. -/
def lookupAgent (agents : AgentType → Option ManagedAgent) (t : AgentType) :
    Except String ManagedAgent :=
  match agents t with
  | some a => Except.ok a
  | none => Except.error ("KeyError: AgentType." ++ agentTypeValue t)

/-- The `try` body of `UnifiedAgentManager.process_request` (lines 149–218):
look up the triage agent, run `analyze_request`, map the routed strings
through `AgentType(...)`/`TaskComplexity(...)` with their `except
ValueError` fallbacks, look up and execute the primary agent and build the
success `AgentResponse`.  `nowMs` is `int(time.time() * 1000)` at entry and
`elapsed` the measured `execution_time`. -/
def processRequestBody (agents : AgentType → Option ManagedAgent)
    (nowMs elapsed : Int) (query : List Char)
    (context : List (String × String)) : Except String AgentResponse := do
  let _triage ← lookupAgent agents .triage
  let triage_result := analyze_request query context
  let agent_type_str := triage_result.agent_type
  let primary_agent_type := (agentTypeOfValue agent_type_str).getD .executor
  let complexity := (taskComplexityOfValue triage_result.complexity).getD .medium
  let task_id := "task_" ++ toString nowMs
  let primary_agent ← lookupAgent agents primary_agent_type
  let result ← primary_agent.run (String.mk query)
  Except.ok
    { task_id := task_id
      agent_name := primary_agent.name
      result := result
      success := true
      execution_time := elapsed
      metadata := some
        [("agent_type", .s (agentTypeValue primary_agent_type)),
         ("complexity", .s (taskComplexityValue complexity)),
         ("triage_routing", .s agent_type_str)]
      error := none }

/-- `UnifiedAgentManager.process_request` (lines 143–229): the `try` body,
with `except Exception as e` building the error envelope
(`task_id = f"error_{…}"`, `agent_name = "System"`, `result = ""`,
`success = False`, `error = str(e)`). -/
def process_request (agents : AgentType → Option ManagedAgent)
    (nowMs elapsed : Int) (query : List Char)
    (context : List (String × String)) : AgentResponse :=
  match processRequestBody agents nowMs elapsed query context with
  | Except.ok r => r
  | Except.error e =>
    { task_id := "error_" ++ toString nowMs
      agent_name := "System"
      result := ""
      success := false
      execution_time := elapsed
      metadata := none
      error := some e }

/-- The `try` body of `UnifiedAgentManager.process_task` (lines 235–290):
`self.agents.get(task.agent_type)` with executor fallback, raise when both
are missing, execute, build the success response. -/
def processTaskBody (agents : AgentType → Option ManagedAgent)
    (elapsed : Int) (task : AgentTask) : Except String AgentResponse := do
  let primary_agent ←
    match agents task.agent_type with
    | some a => Except.ok a
    | none =>
      match agents .executor with
      | some a => Except.ok a
      | none =>
        Except.error ("No agent available for task type: AgentType."
          ++ agentTypeValue task.agent_type)
  let result ← primary_agent.run task.content
  Except.ok
    { task_id := task.id
      agent_name := primary_agent.name
      result := result
      success := true
      execution_time := elapsed
      metadata := some
        [("agent_type", .s (agentTypeValue task.agent_type)),
         ("complexity", .s (taskComplexityValue task.complexity)),
         ("context", .m task.context)]
      error := none }

/-- Set a key in the `completed_tasks` dict. -/
def dictSet (m : List (String × AgentResponse)) (k : String) (v : AgentResponse) :
    List (String × AgentResponse) :=
  (k, v) :: m.filter (fun p => p.1 != k)

/-- `UnifiedAgentManager.process_task` (lines 231–308): response plus the
`completed_tasks` dict, which records the response under `task.id` on both
the success and the error path (the transient `active_tasks` insert/delete
pair nets out within the call and is elided).  On `except Exception as e`
the envelope keeps the failing task's id. -/
def process_task (agents : AgentType → Option ManagedAgent)
    (elapsed : Int) (task : AgentTask)
    (completed : List (String × AgentResponse)) :
    AgentResponse × List (String × AgentResponse) :=
  match processTaskBody agents elapsed task with
  | Except.ok r => (r, dictSet completed task.id r)
  | Except.error e =>
    let errorResponse : AgentResponse :=
      { task_id := task.id
        agent_name := "System"
        result := ""
        success := false
        execution_time := elapsed
        metadata := none
        error := some e }
    (errorResponse, dictSet completed task.id errorResponse)

/-! ## `agents.py`, `TriageAgent.run` (lines 855–878)

The module-level OpenAI `client` may be `None`; the chat-completions call
(`client.chat.completions.create(...).choices[0].message.content`) is a
parameter that either yields the content string or raises. -/

/-- `TriageAgent.run(query)`: the client guard, then the `try/except`
around the chat call, returning `f"❌ Triage processing error: {str(e)}"`
on failure. -/
def triage_run (client_available : Bool) (chat : String → Except String String)
    (query : String) : String :=
  if !client_available then "❌ OpenAI API not available for triage operations."
  else
    match chat query with
    | Except.ok content => content
    | Except.error e => "❌ Triage processing error: " ++ e

/-! ## Theorems -/

/-- The routing loop returns the first agent of the first matching rule. -/
theorem routeLoop_eq_find (q : List Char) :
    ∀ rules : List (List Char × List String),
      routeLoop q rules =
        match rules.find? (fun r => hasSub r.1 q) with
        | some r => r.2.head!
        | none => "executor" := by
  intro rules
  induction rules with
  | nil => rfl
  | cons r rest ih =>
    obtain ⟨kw, agents⟩ := r
    cases hkw : hasSub kw q <;>
      simp [routeLoop, List.find?_cons, hkw, ih]

/-- Claim C1: `TriageAgent.analyze_request` selects the agent type by
walking the hardcoded `routing_rules` dict in its insertion order
("code", "debug", "performance", "research", "image", "audio", "test",
"coach", "complex") and returning the first agent of the first keyword
contained in the lowercased query, defaulting to `"executor"` when no
keyword is a substring. -/
theorem triage_routes_by_first_matching_keyword :
    routing_rules.map Prod.fst =
      ["code".data, "debug".data, "performance".data, "research".data,
        "image".data, "audio".data, "test".data, "coach".data,
        "complex".data] ∧
    ∀ (query : List Char) (context : List (String × String)),
      (analyze_request query context).agent_type =
        match routing_rules.find? (fun r => hasSub r.1 (lowerChars query)) with
        | some r => r.2.head!
        | none => "executor" := by
  refine ⟨rfl, fun query context => ?_⟩
  have h : (analyze_request query context).agent_type =
      routeLoop (lowerChars query) routing_rules := rfl
  rw [h, routeLoop_eq_find]

/-- Claim C8: `analyze_request` classifies complexity as `"high"` exactly
when the query has more than 50 whitespace-separated words or its
lowercasing contains `"complex"`; otherwise `"low"` exactly when it has
fewer than 10 words; otherwise `"medium"`; `"critical"` is never produced. -/
theorem triage_complexity_characterization :
    ∀ (query : List Char) (context : List (String × String)),
      ((analyze_request query context).complexity = "high" ↔
        (50 < (pySplit query).length ∨
          hasSub "complex".data (lowerChars query) = true)) ∧
      ((analyze_request query context).complexity = "low" ↔
        (¬(50 < (pySplit query).length ∨
            hasSub "complex".data (lowerChars query) = true) ∧
          (pySplit query).length < 10)) ∧
      ((analyze_request query context).complexity = "medium" ↔
        (¬(50 < (pySplit query).length ∨
            hasSub "complex".data (lowerChars query) = true) ∧
          ¬(pySplit query).length < 10)) ∧
      (analyze_request query context).complexity ≠ "critical" := by
  intro query context
  have hc : (analyze_request query context).complexity =
      (if 50 < (pySplit query).length || hasSub "complex".data (lowerChars query)
        then "high"
        else if (pySplit query).length < 10 then "low" else "medium") := rfl
  have hhl : ("high" : String) ≠ "low" := by decide
  have hhm : ("high" : String) ≠ "medium" := by decide
  have hlm : ("low" : String) ≠ "medium" := by decide
  have hhc : ("high" : String) ≠ "critical" := by decide
  have hlc : ("low" : String) ≠ "critical" := by decide
  have hmc : ("medium" : String) ≠ "critical" := by decide
  rw [hc]
  by_cases h1 : 50 < (pySplit query).length ∨
      hasSub "complex".data (lowerChars query) = true
  · have hb : (decide (50 < (pySplit query).length) ||
        hasSub "complex".data (lowerChars query)) = true := by
      rcases h1 with h | h <;> simp [h]
    simp [hb, h1, hhl, hhm, hhc]
  · have hb : (decide (50 < (pySplit query).length) ||
        hasSub "complex".data (lowerChars query)) = false := by
      push_neg at h1
      simp [h1.1, h1.2]
    by_cases h2 : (pySplit query).length < 10
    · simp [hb, h1, h2, hhl.symm, hlm, hlc]
    · simp [hb, h1, h2, hhm.symm, hlm.symm, hmc]

/-- A list is always a substring of itself prefixed by anything. -/
theorem hasSub_append_self (l : List Char) :
    ∀ pre : List Char, hasSub l (pre ++ l) = true := by
  have hself : ∀ m : List Char, leadsWith m m = true := by
    intro m
    induction m with
    | nil => rfl
    | cons a as ih => simp [leadsWith, ih]
  intro pre
  induction pre with
  | nil =>
    cases l with
    | nil => rfl
    | cons b bs => simp [hasSub, hself]
  | cons c cs ih => simp [hasSub, ih]

/-- Claim C7: `TriageAgent.run` never propagates an exception: when the
chat-completions call raises `e` it returns the error string
`"❌ Triage processing error: " + str(e)`, which contains `str(e)` as a
substring, and when no OpenAI client is configured it returns the
availability error string. -/
theorem triage_run_error_string :
    ∀ (chat : String → Except String String) (query : String) (e : String),
      triage_run true (fun _ => Except.error e) query =
        "❌ Triage processing error: " ++ e ∧
      hasSub e.data
        (triage_run true (fun _ => Except.error e) query).data = true ∧
      triage_run false chat query =
        "❌ OpenAI API not available for triage operations." := by
  intro chat query e
  refine ⟨rfl, ?_, rfl⟩
  have h : (("❌ Triage processing error: " ++ e : String)).data =
      ("❌ Triage processing error: " : String).data ++ e.data :=
    String.data_append _ _
  show hasSub e.data (("❌ Triage processing error: " ++ e : String)).data = true
  rw [h]
  exact hasSub_append_self e.data _

/-- Claim C3: whenever the `try` body of `process_request` raises `e`, the
method returns an `AgentResponse` with `success = False`, `error = str(e)`
and `result = ""` instead of propagating; `process_task` does the same and
keeps the failing task's id in the response. -/
theorem process_error_envelope :
    ∀ (agents : AgentType → Option ManagedAgent) (nowMs elapsed : Int)
      (query : List Char) (context : List (String × String))
      (task : AgentTask) (completed : List (String × AgentResponse))
      (e : String),
      (processRequestBody agents nowMs elapsed query context =
          Except.error e →
        process_request agents nowMs elapsed query context =
          { task_id := "error_" ++ toString nowMs, agent_name := "System",
            result := "", success := false, execution_time := elapsed,
            metadata := none, error := some e }) ∧
      (processTaskBody agents elapsed task = Except.error e →
        (process_task agents elapsed task completed).1 =
          { task_id := task.id, agent_name := "System", result := "",
            success := false, execution_time := elapsed, metadata := none,
            error := some e }) := by
  intro agents nowMs elapsed query context task completed e
  constructor
  · intro h
    simp [process_request, h]
  · intro h
    simp [process_task, h]

/-- The error envelope of `process_task` at a concrete input: with no
agents installed, the lookup raises and the response keeps the task id. -/
theorem process_error_envelope_witness :
    (process_task (fun _ => none) 7
        { id := "t1", content := "hi", agent_type := AgentType.ceo,
          complexity := TaskComplexity.low, context := [] } []).1 =
      { task_id := "t1", agent_name := "System", result := "",
        success := false, execution_time := 7, metadata := none,
        error := some "No agent available for task type: AgentType.ceo" } :=
  (process_error_envelope (fun _ => none) 0 7 [] []
    { id := "t1", content := "hi", agent_type := AgentType.ceo,
      complexity := TaskComplexity.low, context := [] } []
    "No agent available for task type: AgentType.ceo").2 rfl

/-- Claim C4 counterexample: with any fixed content hash, two
`add_document` calls with the same content and different sources produce
different document IDs, so the ID is not a function of the content alone. -/
theorem add_document_id_depends_on_source :
    addDocumentId (fun _ => 0) "doc" "alpha" ≠
      addDocumentId (fun _ => 0) "doc" "beta" := by
  decide

/-- Claim C4 (amended): on the available path `add_document` issues one
`collection.add` call carrying a single document, whose ID is
`f"{source}_{abs(hash(content))}"` — a deterministic function of the
source and content pair — and returns `True`. -/
theorem add_document_single_doc_id_formula :
    ∀ (h : String → ℕ) (content source : String)
      (metadata : Option (List (String × String))),
      (add_document h true true content source metadata).1 =
        some { documents := [content],
               metadatas := [metadata.getD [("source", source)]],
               ids := [source ++ "_" ++ toString (h content)] } ∧
      (add_document h true true content source metadata).2 = true ∧
      (add_document h false true content source metadata) = (none, false) ∧
      (add_document h true false content source metadata) = (none, false) := by
  intro h content source metadata
  exact ⟨rfl, rfl, rfl, rfl⟩

/-- Claim C6 counterexample: `cleanup_old_memories` removes a stored entry:
an entry with timestamp `0` is in the store, and after
`cleanup_old_memories(max_age_days=30)` at time `2592001` (one second past
the 30-day cutoff) the store is empty. -/
theorem cleanup_removes_old_entry :
    entryAtEpoch ∈ [entryAtEpoch] ∧
    cleanup_old_memories 30 2592001 [entryAtEpoch] = [] := by
  exact ⟨List.mem_singleton.mpr rfl, rfl⟩

/-- Claim C5: `POST /api/rag/search` returns HTTP 400 with an error when
the JSON body is absent or lacks `"query"`; otherwise its `results` field
lists at most `max_results` elements (default 5 when the key is absent),
each serialised with exactly the fields content, source, score and
metadata, in the order returned by `RAGSystem.search` (assuming ChromaDB
honours `n_results`, i.e. `queryFn` returns at most `n` documents). -/
theorem rag_search_endpoint_contract :
    ∀ (queryFn : String → ℕ → ChromaReply) (data : List (String × JVal))
      (q : String),
      (search_documents (ragSearch queryFn true true true) none =
        (400, SearchResp.err "Query is required")) ∧
      (assocLookup data "query" = none →
        search_documents (ragSearch queryFn true true true) (some data) =
          (400, SearchResp.err "Query is required")) ∧
      (assocLookup data "max_results" = none → maxResultsOf data = 5) ∧
      (assocLookup data "query" = some (JVal.s q) →
        (∀ s n, (queryFn s n).documents.length ≤ n) →
        search_documents (ragSearch queryFn true true true) (some data) =
          (200, SearchResp.ok q
            ((ragSearch queryFn true true true q (maxResultsOf data)).map
              toSearchHit)) ∧
        ((ragSearch queryFn true true true q (maxResultsOf data)).map
            toSearchHit).length ≤ maxResultsOf data) := by
  intro queryFn data q
  refine ⟨rfl, ?_, ?_, ?_⟩
  · intro h
    by_cases hd : data.isEmpty <;> simp [search_documents, hd, h]
  · intro h
    simp [maxResultsOf, h]
  · intro hq hlen
    have hd : data.isEmpty = false := by
      cases data with
      | nil => simp [assocLookup] at hq
      | cons a as => rfl
    constructor
    · simp [search_documents, hd, hq, jvalString]
    · rw [List.length_map]
      simp only [ragSearch]
      rw [if_neg (by simp)]
      simp only [List.length_map, List.length_range]
      exact hlen q (maxResultsOf data)

/-- The endpoint contract at a concrete input: one stored document, body
`{"query": "hello"}`, default `max_results`. -/
theorem rag_search_endpoint_contract_witness :
    search_documents
      (ragSearch
        (fun _ n => if n = 0 then ⟨[], none, none⟩
          else ⟨["d1"], some [[("source", "s1")]], some [(1 : ℚ)/2]⟩)
        true true true)
      (some [("query", JVal.s "hello")]) =
      (200, SearchResp.ok "hello"
        [{ content := "d1", source := "s1", score := 1 - 1/2,
           metadata := [("source", "s1")] }]) := by
  have h := (rag_search_endpoint_contract
    (fun _ n => if n = 0 then ⟨[], none, none⟩
      else ⟨["d1"], some [[("source", "s1")]], some [(1 : ℚ)/2]⟩)
    [("query", JVal.s "hello")] "hello").2.2.2 rfl
    (by
      intro s n
      cases n with
      | zero => simp
      | succ m => simp)
  rw [h.1]
  rfl

/-- Summing a deduplicated list equals summing over the list's finite set
of elements. -/
theorem dedup_map_sum_eq_finset (l : List (List Char)) (f : List Char → ℝ) :
    (l.dedup.map f).sum = ∑ w ∈ l.toFinset, f w := by
  have h2 : l.dedup.toFinset = l.toFinset := by ext x; simp
  rw [← h2, List.sum_toFinset f (List.nodup_dedup l)]

/-- Casting a natural list sum into `ℝ` pointwise. -/
theorem listSum_natCast (vocab : List (List Char)) (f : List Char → ℕ) :
    (((vocab.map f).sum : ℕ) : ℝ) = (vocab.map (fun w => (f w : ℝ))).sum := by
  induction vocab with
  | nil => simp
  | cons x xs ih => simp [ih]

/-- Claim C2 counterexample: on texts `"a b"` and `"a c"` the code's
`_calculate_tfidf_similarity` yields `1/2` (the raw term-frequency cosine)
while the textbook TF-IDF cosine over the two-text corpus yields `0`
(the shared word "a" has IDF `log(2/2) = 0` and the other words occur in
only one text), so the code does not compute the textbook formula. -/
theorem tfidf_similarity_ne_textbook :
    calculate_tfidf_similarity "a b".data "a c".data = 1 / 2 ∧
    tfidfCosineTextbook "a b".data "a c".data = 0 ∧
    calculate_tfidf_similarity "a b".data "a c".data ≠
      tfidfCosineTextbook "a b".data "a c".data := by
  have hcode : calculate_tfidf_similarity "a b".data "a c".data = 1 / 2 := by
    have hvoc : ¬(simVocab "a b".data "a c".data = []) := by decide
    have h1 : simNormSq1 "a b".data "a c".data = 2 := by decide
    have h2 : simNormSq2 "a b".data "a c".data = 2 := by decide
    have hd : simDot "a b".data "a c".data = 1 := by decide
    have hs : Real.sqrt ((2 : ℕ) : ℝ) ≠ 0 := by
      have hc : ((2 : ℕ) : ℝ) = (2 : ℝ) := by norm_num
      rw [hc]
      positivity
    unfold calculate_tfidf_similarity
    rw [if_neg hvoc, h1, h2, hd]
    rw [if_neg (by push_neg; exact ⟨hs, hs⟩)]
    have hc : ((2 : ℕ) : ℝ) = (2 : ℝ) := by norm_num
    rw [hc, Real.mul_self_sqrt (by norm_num)]
    norm_num
  have htb : tfidfCosineTextbook "a b".data "a c".data = 0 := by
    have hvoc : simVocab "a b".data "a c".data = [['b'], ['a'], ['c']] := by
      decide
    have ha : tbDocFreq "a b".data "a c".data ['a'] = 2 := by decide
    have hidfa : tbIdf "a b".data "a c".data ['a'] = 0 := by
      rw [tbIdf, ha]
      norm_num [Real.log_one]
    have hb2 : (simWords "a c".data).count ['b'] = 0 := by decide
    have hc1 : (simWords "a b".data).count ['c'] = 0 := by decide
    have hdot : ((simVocab "a b".data "a c".data).map
        (fun w => tbWeight1 "a b".data "a c".data w *
          tbWeight2 "a b".data "a c".data w)).sum = 0 := by
      rw [hvoc]
      simp [tbWeight1, tbWeight2, hidfa, hb2, hc1]
    simp only [tfidfCosineTextbook]
    split_ifs with h1 h2
    · rfl
    · rfl
    · rw [hdot]
      exact zero_div _
  refine ⟨hcode, htb, ?_⟩
  rw [hcode, htb]
  norm_num

/-- Claim C2 (amended): `_calculate_tfidf_similarity` computes the cosine
similarity of the raw term-frequency vectors of the two texts over the
combined vocabulary (no IDF weighting), returning `0.0` when the
vocabulary is empty or either vector has zero norm. -/
theorem tfidf_similarity_is_tf_cosine :
    ∀ text1 text2 : List Char,
      calculate_tfidf_similarity text1 text2 = tfCosineOfVectors text1 text2 := by
  intro t1 t2
  set L := simWords t1 ++ simWords t2 with hL
  have hvocab : simVocab t1 t2 = L.dedup := rfl
  have hdot : ((simDot t1 t2 : ℕ) : ℝ) =
      ∑ w ∈ L.toFinset,
        ((simWords t1).count w : ℝ) * ((simWords t2).count w : ℝ) := by
    rw [simDot, hvocab, listSum_natCast]
    rw [show (fun w => (((simWords t1).count w * (simWords t2).count w : ℕ) : ℝ)) =
        (fun w => ((simWords t1).count w : ℝ) * ((simWords t2).count w : ℝ)) from
      funext (fun w => by push_cast; ring)]
    exact dedup_map_sum_eq_finset L _
  have hn1 : ((simNormSq1 t1 t2 : ℕ) : ℝ) =
      ∑ w ∈ L.toFinset, ((simWords t1).count w : ℝ) ^ 2 := by
    rw [simNormSq1, hvocab, listSum_natCast]
    rw [show (fun w => (((simWords t1).count w ^ 2 : ℕ) : ℝ)) =
        (fun w => ((simWords t1).count w : ℝ) ^ 2) from
      funext (fun w => by push_cast; ring)]
    exact dedup_map_sum_eq_finset L _
  have hn2 : ((simNormSq2 t1 t2 : ℕ) : ℝ) =
      ∑ w ∈ L.toFinset, ((simWords t2).count w : ℝ) ^ 2 := by
    rw [simNormSq2, hvocab, listSum_natCast]
    rw [show (fun w => (((simWords t2).count w ^ 2 : ℕ) : ℝ)) =
        (fun w => ((simWords t2).count w : ℝ) ^ 2) from
      funext (fun w => by push_cast; ring)]
    exact dedup_map_sum_eq_finset L _
  have hempty : (simVocab t1 t2 = []) ↔ (L.toFinset = ∅) := by
    rw [hvocab]
    constructor
    · intro h
      rw [List.toFinset_eq_empty_iff]
      exact (List.dedup_eq_nil L).mp h
    · intro h
      rw [List.dedup_eq_nil]
      exact (List.toFinset_eq_empty_iff L).mp h
  simp only [calculate_tfidf_similarity, tfCosineOfVectors]
  rw [hdot, hn1, hn2]
  by_cases hv : simVocab t1 t2 = []
  · rw [if_pos hv, if_pos (hempty.mp hv)]
  · rw [if_neg hv, if_neg (fun h => hv (hempty.mpr h))]

/-- The descending comparison reflects the order on scores. -/
theorem descBy_le {α : Type} (f : α → ℝ) {a b : α}
    (h : descBy f a b = true) : f b ≤ f a := by
  simp only [descBy] at h
  split at h
  · assumption
  · exact absurd h (by simp)

/-- The descending comparison is transitive. -/
theorem descBy_trans {α : Type} (f : α → ℝ) :
    ∀ a b c : α, descBy f a b = true → descBy f b c = true →
      descBy f a c = true := by
  intro a b c h1 h2
  have hab := descBy_le f h1
  have hbc := descBy_le f h2
  simp only [descBy]
  rw [if_pos (le_trans hbc hab)]

/-- The descending comparison is total. -/
theorem descBy_total {α : Type} (f : α → ℝ) :
    ∀ a b : α, (descBy f a b || descBy f b a) = true := by
  intro a b
  simp only [descBy]
  rcases le_total (f b) (f a) with h | h
  · rw [if_pos h]
    simp
  · rw [if_pos h]
    simp

/-- The entry list after `search_memory` agrees with the original list on
every field except `relevance_score` (same length, same order). -/
theorem search_store_strip :
    ∀ (query : List Char) (agent_name entry_type : Option String)
      (top_k : ℕ) (entries : List MemoryEntry),
      (search_memory query agent_name entry_type top_k entries).2.map stripScore =
        entries.map stripScore := by
  intro q an et k entries
  have hsnd : (search_memory q an et k entries).2 =
      entries.map (fun e => if passesFilters an et e then scoreEntry q e else e) :=
    rfl
  rw [hsnd, List.map_map]
  apply List.map_congr_left
  intro e _
  by_cases h : passesFilters an et e
  · simp [h, Function.comp, stripScore, scoreEntry]
  · simp [h, Function.comp, stripScore]

/-- Claim C9: `search_memory` returns at most `top_k` entries, each a
stored entry passing the `agent_name`/`entry_type` filters (with its score
field set), sorted in non-increasing order of the combined score
`0.7 * TF-cosine(query, content) + 0.3 * Jaccard(query keywords, entry
keywords)`. -/
theorem search_memory_topk_sorted :
    ∀ (query : List Char) (agent_name entry_type : Option String)
      (top_k : ℕ) (entries : List MemoryEntry),
      (search_memory query agent_name entry_type top_k entries).1.length ≤ top_k ∧
      List.Forall (fun e => ∃ e₀, e₀ ∈ entries ∧
          passesFilters agent_name entry_type e₀ = true ∧
          e = scoreEntry query e₀)
        (search_memory query agent_name entry_type top_k entries).1 ∧
      List.Pairwise
        (fun a b => combinedRelevance query b ≤ combinedRelevance query a)
        (search_memory query agent_name entry_type top_k entries).1 := by
  intro q an et k entries
  have hfst : (search_memory q an et k entries).1 =
      (((entries.filter (passesFilters an et)).map (scoreEntry q)).mergeSort
        (descBy (fun e => e.relevance_score.getD 0))).take k := rfl
  have hmemScored : ∀ e,
      e ∈ ((entries.filter (passesFilters an et)).map (scoreEntry q)) →
      ∃ e₀, e₀ ∈ entries ∧ passesFilters an et e₀ = true ∧ e = scoreEntry q e₀ := by
    intro e he
    obtain ⟨e₀, he₀, rfl⟩ := List.mem_map.mp he
    exact ⟨e₀, (List.mem_filter.mp he₀).1, (List.mem_filter.mp he₀).2, rfl⟩
  have hkey : ∀ e,
      e ∈ ((entries.filter (passesFilters an et)).map (scoreEntry q)) →
      e.relevance_score.getD 0 = combinedRelevance q e := by
    intro e he
    obtain ⟨e₀, _, rfl⟩ := List.mem_map.mp he
    rfl
  refine ⟨?_, ?_, ?_⟩
  · rw [hfst, List.length_take]
    exact min_le_left _ _
  · rw [List.forall_iff_forall_mem]
    intro e he
    rw [hfst] at he
    have he1 := List.take_subset _ _ he
    have he2 := (List.mergeSort_perm _ _).mem_iff.mp he1
    exact hmemScored e he2
  · have hp := @List.sorted_mergeSort MemoryEntry
      (descBy (fun e : MemoryEntry => e.relevance_score.getD 0))
      (descBy_trans _) (descBy_total _)
      ((entries.filter (passesFilters an et)).map (scoreEntry q))
    have hp2 : List.Pairwise
        (fun a b => combinedRelevance q b ≤ combinedRelevance q a)
        (((entries.filter (passesFilters an et)).map (scoreEntry q)).mergeSort
          (descBy (fun e => e.relevance_score.getD 0))) := by
      refine hp.imp_of_mem ?_
      intro a b ha hb h
      have hle := descBy_le _ h
      have hma := (List.mergeSort_perm _ _).mem_iff.mp ha
      have hmb := (List.mergeSort_perm _ _).mem_iff.mp hb
      rw [hkey a hma, hkey b hmb] at hle
      exact hle
    rw [hfst]
    exact hp2.sublist (List.take_sublist _ _)

/-- Claim C10: `search_memory` is read-only on the store except for
scoring: the entry list keeps its length, order and every field but
`relevance_score` (the `stripScore` images agree), and `relevance_score`
is overwritten with the combined score exactly on the entries passing the
filters and untouched elsewhere. -/
theorem search_memory_store_frame :
    ∀ (query : List Char) (agent_name entry_type : Option String)
      (top_k : ℕ) (entries : List MemoryEntry),
      (search_memory query agent_name entry_type top_k entries).2.map stripScore =
        entries.map stripScore ∧
      List.Forall₂ (fun e e' =>
          e'.relevance_score =
            if passesFilters agent_name entry_type e then
              some (combinedRelevance query e)
            else e.relevance_score)
        entries (search_memory query agent_name entry_type top_k entries).2 := by
  intro q an et k entries
  refine ⟨search_store_strip q an et k entries, ?_⟩
  have hsnd : (search_memory q an et k entries).2 =
      entries.map (fun e => if passesFilters an et e then scoreEntry q e else e) :=
    rfl
  rw [hsnd, List.forall₂_map_right_iff]
  rw [List.forall₂_same]
  intro e _
  by_cases h : passesFilters an et e
  · rw [if_pos h, if_pos h]
    rfl
  · rw [if_neg h, if_neg h]

/-- Claim C6 (amended): entries are removed only by
`cleanup_old_memories`, which keeps exactly the entries with
`timestamp > now - max_age_days*24*60*60`; `add_memory` only appends, and
`search_memory` keeps every entry (only `relevance_score` changes). -/
theorem memory_eviction_only_cleanup :
    ∀ (max_age_days : ℕ) (now : Int) (entries : List MemoryEntry)
      (idFn : List Char → String → Int → String) (content : List Char)
      (agent_name entry_type : String) (metadata : List (String × String))
      (query : List Char) (an et : Option String) (top_k : ℕ),
      (cleanup_old_memories max_age_days now entries).Sublist entries ∧
      (∀ e : MemoryEntry,
        e ∈ cleanup_old_memories max_age_days now entries ↔
          e ∈ entries ∧ now - (max_age_days * 24 * 60 * 60 : ℕ) < e.timestamp) ∧
      entries.Sublist
        (add_memory idFn now content agent_name entry_type metadata entries).2 ∧
      (search_memory query an et top_k entries).2.map stripScore =
        entries.map stripScore := by
  intro days now entries idFn content agent_name entry_type metadata q an et k
  refine ⟨List.filter_sublist _, ?_, ?_, search_store_strip q an et k entries⟩
  · intro e
    rw [cleanup_old_memories, List.mem_filter]
    simp [decide_eq_true_eq]
  · exact List.sublist_append_left _ _
